import Mathlib

/-!
Verification of the pixelflut server core against its specification.

The definitions below are shallow embeddings of the Rust sources under
src/rust/src/.  Machine integers are modelled as Nat with explicit bounds
(u8 channels as Fin 256, u32 arithmetic kept below 2^32 explicitly).
Components of the repository that are referenced but not present in the
source tree (the Pixmap trait implementation, the frame codec, the
protocol parser and the ConnectionPreferences struct) are modelled from
the specification text and are marked as such in their doc comments.
-/

deriving instance DecidableEq for Except

namespace Pixelflut

/-- Color data represented as red, green and blue channels of 8 bit each,
from pixmap/color.rs (`pub struct Color(pub u8, pub u8, pub u8)`). -/
structure Color where
  r : Fin 256
  g : Fin 256
  b : Fin 256
deriving DecidableEq, Repr

/-- The default color: black, used as the initial canvas color. -/
def cBlack : Color := ⟨0, 0, 0⟩

/-- Embedding of `From<Color> for u32` in pixmap/color.rs:
`u32::from_be_bytes([value.0, value.1, value.2, 0])`, i.e. the red channel
lands in the most significant byte and the least significant byte is 0. -/
def colorToU32 (c : Color) : Nat :=
  c.r.val * 16777216 + c.g.val * 65536 + c.b.val * 256

/-- Embedding of `From<u32> for Color` in pixmap/color.rs:
`let b = src.to_be_bytes(); Self(b[1], b[2], b[3])` — the most significant
byte of the input is discarded and the remaining three become r, g, b. -/
def colorFromU32 (n : Nat) : Color :=
  ⟨⟨n / 65536 % 256, by omega⟩, ⟨n / 256 % 256, by omega⟩, ⟨n % 256, by omega⟩⟩

/-- Embedding of `Into<u32> for &Color` in pixmap/color.rs:
`0u32 | (self.0 as u32) | (self.1 as u32) << 8 | (self.2 as u32) << 16`.
This is the little-endian packing used by the rgb64/rgba64 encoders. -/
def colorToU32LE (c : Color) : Nat :=
  c.r.val + c.g.val * 256 + c.b.val * 65536

/-- A change to a certain pixel inside a certain pixmap, from
differential_state/tracker.rs.  Equality in the source (`PartialEq` and the
no-hash `Hash`) is decided by `pixmap_index` alone; the embedding keeps the
full record and models the set membership test separately. -/
structure TrackedChange where
  pixmap_index : Nat
  coordinates : Nat × Nat
  color : Color
deriving DecidableEq, Repr

/-- State of a `Tracker` from differential_state/tracker.rs.  The Rust
`HashSet` keyed by `pixmap_index` is modelled as a list in insertion order
containing at most one element per `pixmap_index`. -/
structure Tracker where
  pixmap_size : Nat × Nat
  changes : List TrackedChange
deriving DecidableEq, Repr

/-- Embedding of `Tracker::new`: an empty change set for a pixmap of the
given dimensions. -/
def Tracker.new (w h : Nat) : Tracker := ⟨(w, h), []⟩

/-- Embedding of `Tracker::add`.  The source calls `HashSet::insert`, whose
documented behavior is: if the set already contains an equal value (equal
meaning equal `pixmap_index`, per the `PartialEq` impl), the set is NOT
modified and the original element is retained.  No bounds check is
performed on the coordinates. -/
def Tracker.add (t : Tracker) (x y : Nat) (color : Color) : Tracker :=
  let idx := y * t.pixmap_size.1 + x
  if t.changes.any (fun c => c.pixmap_index == idx) then t
  else { t with changes := t.changes ++ [⟨idx, (x, y), color⟩] }

/-- Embedding of `Tracker::get_changes` (drain): returns the tracked
changes and resets the set to empty. -/
def Tracker.get_changes (t : Tracker) : List TrackedChange × Tracker :=
  (t.changes, { t with changes := [] })

/-- Embedding of `Tracker::clear`. -/
def Tracker.clear (t : Tracker) : Tracker := { t with changes := [] }

/-- Errors of pixmap operations, from the specification error taxonomy
(§7): OutOfBounds for coordinates outside the pixmap, SizeMismatch for
raw-data replacement of the wrong length. -/
inductive PixmapError where
  | outOfBounds
  | sizeMismatch
deriving DecidableEq, Repr

/-- Modelled from the spec: the `Pixmap` trait implementation
(`InMemoryPixmap`) is referenced by src/rust/src/pixmap/pixmap_actor.rs but
its module is not in the source tree.  Per §3/§4.1 a pixmap has immutable
dimensions (W, H) and a row-major sequence of W·H colors. -/
structure Pixmap where
  width : Nat
  height : Nat
  data : List Color
deriving DecidableEq, Repr

/-- Modelled from the spec (§4.1): `set_pixel(x, y, c)` requires
0 ≤ x < W and 0 ≤ y < H, else it fails with OutOfBounds; the write stores
the color at row-major index y·W + x. -/
def Pixmap.set_pixel (p : Pixmap) (x y : Nat) (c : Color) : Except PixmapError Pixmap :=
  if x < p.width && y < p.height then
    .ok { p with data := p.data.set (y * p.width + x) c }
  else .error .outOfBounds

/-- The message handled by the pixmap coordinator and forwarded to the
tracker, from pixmap/pixmap_actor.rs (`SetPixelMsg`). -/
structure SetPixelMsg where
  x : Nat
  y : Nat
  color : Color
deriving DecidableEq, Repr

/-- Result of running `Handler<SetPixelMsg> for PixmapActor` once:
the pixmap afterwards, the messages sent to the tracker recipient, and the
value returned to the caller. -/
structure SetPixelOutcome where
  pixmap : Pixmap
  notifications : List SetPixelMsg
  result : Except PixmapError Unit
deriving DecidableEq, Repr

/-- Embedding of `Handler<SetPixelMsg> for PixmapActor` in
pixmap/pixmap_actor.rs: if a tracker recipient is configured, a future
forwarding `msg` to it is spawned BEFORE `set_pixel` runs and without
inspecting its result; then the handler returns `set_pixel`'s result.  The
boolean argument models whether `tracker_addr` is `Some`. -/
def handleSetPixelMsg (p : Pixmap) (trackerConfigured : Bool) (msg : SetPixelMsg) :
    SetPixelOutcome :=
  let notifications := if trackerConfigured then [msg] else []
  match p.set_pixel msg.x msg.y msg.color with
  | .ok p2 => ⟨p2, notifications, .ok ()⟩
  | .error e => ⟨p, notifications, .error e⟩

/-- Effect of the tracker receiving one forwarded `SetPixelMsg`, from
`Handler<SetPixelMsg> for TrackerActor` in
differential_state/tracker_actor.rs: `self.tracker.add(msg.x, msg.y,
msg.color)`. -/
def trackerReceive (t : Tracker) (m : SetPixelMsg) : Tracker :=
  t.add m.x m.y m.color

/-- Effect of the tracker receiving a list of forwarded messages in
order. -/
def trackerReceiveAll (t : Tracker) (ms : List SetPixelMsg) : Tracker :=
  ms.foldl trackerReceive t

/-- Modelled from the spec (§4.2): the frame codec module
(net/framing.rs) is referenced by the servers but is not in the source
tree.  `from_input` returns the first newline-terminated frame (without
the terminator, byte 10) together with the number of bytes it consumed,
or nothing when the buffer holds no complete frame. -/
def frameFromInput (buf : List Nat) : Option (List Nat × Nat) :=
  (buf.findIdx? (fun b => b == 10)).map (fun i => (buf.take i, i + 1))

/-- Embedding of the frame-extraction loop of `UdpServer::process_received`
in net/udp/udp_server.rs: while the buffer has remaining bytes, split off
the next frame and continue behind it; a parse failure (no complete frame)
stops processing of the rest of the buffer. -/
def extractFrames : List Nat → List (List Nat)
  | [] => []
  | x :: xs =>
    match h : frameFromInput (x :: xs) with
    | none => []
    | some (f, len) => f :: extractFrames ((x :: xs).drop len)
termination_by l => l.length
decreasing_by
  rcases Option.map_eq_some'.mp h with ⟨i, hfind, heq⟩
  injection heq with h1 h2
  subst h2
  simp only [List.length_drop, List.length_cons]
  omega

/-- Length of the mutable slice that `UdpServer::listen` passes to
`recv_from`: the source builds `BytesMut::with_capacity(1024)`, which has
length 0 (capacity 1024 but no initialized bytes), and then slices it with
`&mut buffer[..]`, producing a zero-length slice. -/
def udpRecvBufferLen : Nat := 0

/-- Datagram-socket receive semantics: `recv_from` copies at most the
buffer's length many bytes of the datagram into the buffer and discards
the rest of the datagram. -/
def recvFromDelivered (datagram : List Nat) (bufLen : Nat) : List Nat :=
  datagram.take bufLen

/-- The bytes of an incoming datagram that `UdpServer::listen` actually
hands to `process_received`. -/
def udpListenDelivered (datagram : List Nat) : List Nat :=
  recvFromDelivered datagram udpRecvBufferLen

/-- The frames extracted from one incoming datagram by the receive loop of
`UdpServer::listen` composed with `process_received`. -/
def udpListenFrames (datagram : List Nat) : List (List Nat) :=
  extractFrames (udpListenDelivered datagram)

/-- The base64 alphabet of RFC 4648 as ASCII byte values:
A..Z, a..z, 0..9, plus (43) and slash (47).  The padding character is
61 (the equals sign).  This models the external `base64` crate used by
state_encoding/rgb64.rs. -/
def b64alphabet : List Nat :=
  [65, 66, 67, 68, 69, 70, 71, 72, 73, 74, 75, 76, 77, 78, 79, 80, 81,
   82, 83, 84, 85, 86, 87, 88, 89, 90,
   97, 98, 99, 100, 101, 102, 103, 104, 105, 106, 107, 108, 109, 110,
   111, 112, 113, 114, 115, 116, 117, 118, 119, 120, 121, 122,
   48, 49, 50, 51, 52, 53, 54, 55, 56, 57, 43, 47]

/-- The ASCII byte for a 6-bit value under the base64 alphabet. -/
def b64charOf (v : Nat) : Nat := b64alphabet.getD v 0

/-- The 6-bit value of a base64 alphabet byte (inverse lookup). -/
def b64valueOf (c : Nat) : Nat := b64alphabet.findIdx (fun a => a == c)

/-- Regroup a byte sequence into 6-bit values, three bytes becoming four
sextets; a trailing group of one or two bytes becomes two or three sextets
padded with zero bits on the right. -/
def bytesToSextets : List Nat → List Nat
  | [] => []
  | [a] => [a / 4, a % 4 * 16]
  | [a, b] => [a / 4, a % 4 * 16 + b / 16, b % 16 * 4]
  | a :: b :: c :: rest =>
    a / 4 :: (a % 4 * 16 + b / 16) :: (b % 16 * 4 + c / 64) :: c % 64 ::
      bytesToSextets rest

/-- Reassemble bytes from 6-bit values, four sextets becoming three bytes;
a trailing group of two or three sextets becomes one or two bytes. -/
def sextetsToBytes : List Nat → List Nat
  | s1 :: s2 :: s3 :: s4 :: rest =>
    (s1 * 4 + s2 / 16) :: (s2 % 16 * 16 + s3 / 4) :: (s3 % 4 * 64 + s4) ::
      sextetsToBytes rest
  | [s1, s2] => [s1 * 4 + s2 / 16]
  | [s1, s2, s3] => [s1 * 4 + s2 / 16, s2 % 16 * 16 + s3 / 4]
  | _ => []

/-- The padding characters base64 appends for a payload of the given
length. -/
def b64pad (n : Nat) : List Nat :=
  match n % 3 with
  | 1 => [61, 61]
  | 2 => [61]
  | _ => []

/-- Base64-encode a byte sequence (output as ASCII byte values). -/
def b64encode (l : List Nat) : List Nat :=
  (bytesToSextets l).map b64charOf ++ b64pad l.length

/-- Base64-decode an ASCII byte sequence: drop padding, map alphabet bytes
back to sextets, regroup into bytes. -/
def b64decode (s : List Nat) : List Nat :=
  sextetsToBytes ((s.filter (fun c => c != 61)).map b64valueOf)

/-- The three bytes that `Rgb64Encoder::encode` emits for one pixel, from
state_encoding/rgb64.rs: the color is packed through `Into<u32> for
&Color`, split into little-endian bytes, and the low three bytes are
pushed. -/
def colorRgbBytes (c : Color) : List Nat :=
  let u := colorToU32LE c
  [u % 256, u / 256 % 256, u / 65536 % 256]

/-- The byte buffer `Rgb64Encoder::encode` builds before base64-encoding:
three bytes per pixel in row-major order. -/
def rgb64EncodeBytes (data : List Color) : List Nat :=
  data.flatMap colorRgbBytes

/-- Embedding of `Rgb64Encoder::encode` in state_encoding/rgb64.rs: build
the per-pixel byte buffer and base64-encode it.  The width and height
arguments are only used by the source to preallocate. -/
def rgb64Encode (w h : Nat) (data : List Color) : List Nat :=
  let _ := w * h * 3
  b64encode (rgb64EncodeBytes data)

/-- State of a `TrackerActor` from differential_state/tracker_actor.rs:
the wrapped tracker, the value currently stored in the watch channel, and
the number of live receivers of that channel (the sender's `is_closed`
is true exactly when this count is zero). -/
structure TrackerActorState where
  tracker : Tracker
  publisherValue : List SetPixelMsg
  receiverCount : Nat
deriving DecidableEq, Repr

/-- Embedding of `TrackerActor::new`: a fresh tracker, an empty published
vector, and zero receivers — the source keeps only `watch::channel(..).0`
(the sender), dropping the initial receiver immediately, so the channel
starts out closed. -/
def TrackerActorState.new (w h : Nat) : TrackerActorState :=
  ⟨Tracker.new w h, [], 0⟩

/-- Conversion of a drained `TrackedChange` into the `SetPixelMsg`
published to subscribers, from `Handler<TriggerUpdatesMsg>`. -/
def changeToMsg (c : TrackedChange) : SetPixelMsg :=
  ⟨c.coordinates.1, c.coordinates.2, c.color⟩

/-- Embedding of `Handler<TriggerUpdatesMsg> for TrackerActor`: only when
the watch channel is not closed (at least one receiver exists) does the
handler drain the tracker and publish the drained vector; otherwise it
does nothing at all. -/
def handleTriggerUpdates (s : TrackerActorState) : TrackerActorState :=
  if s.receiverCount == 0 then s
  else
    let drained := s.tracker.get_changes
    { s with tracker := drained.2, publisherValue := drained.1.map changeToMsg }

/-- Embedding of `Handler<SubscribeMsg> for TrackerActor`: a new receiver
of the watch channel is handed out; the new receiver initially sees the
currently stored value. -/
def handleSubscribe (s : TrackerActorState) : TrackerActorState × List SetPixelMsg :=
  ({ s with receiverCount := s.receiverCount + 1 }, s.publisherValue)

/-- Embedding of `Handler<SetPixelMsg> for TrackerActor`. -/
def handleTrackerSetPixel (s : TrackerActorState) (m : SetPixelMsg) : TrackerActorState :=
  { s with tracker := trackerReceive s.tracker m }

/-- Number of `TriggerEncodingMsg` messages the task spawned by
`AutoEncoder::started` (state_encoding/auto_encoder.rs) has sent after the
given number of interval ticks have elapsed: the spawned future awaits one
tick, sends one message and completes — it contains no loop. -/
def autoEncoderTriggerCount (ticks : Nat) : Nat := min ticks 1

/-- Embedding of `Handler<TriggerEncodingMsg> for AutoEncoder`: the cache
is replaced by the encoding of the pixmap's current size and raw data; the
previous cache value does not enter the result. -/
def handleTriggerEncoding (encode : Nat → Nat → List Color → List Nat)
    (p : Pixmap) (cache : List Nat) : List Nat :=
  let _ := cache
  encode p.width p.height p.data

/-- The requests relevant to subscription reconciliation on a TCP
connection; every other request behaves like `other` with respect to the
subscription state. -/
inductive TcpRequest where
  | subscribe
  | unsubscribe
  | other
deriving DecidableEq, Repr

/-- Modelled from the spec (§9, §4.7): the `ConnectionPreferences` struct
is referenced by net/tcp/tcp_connection.rs but not in the source tree; its
`subscribed` flag is per-connection state set by SUBSCRIBE and cleared by
UNSUBSCRIBE during request dispatch. -/
structure ConnectionPreferences where
  subscribed : Bool
deriving DecidableEq, Repr

/-- Modelled from the spec: effect of dispatching one parsed request on the
connection preferences (the `handle_frame` variant taking preferences is
not in the source tree). -/
def updatePreferences (prefs : ConnectionPreferences) : TcpRequest → ConnectionPreferences
  | .subscribe => ⟨true⟩
  | .unsubscribe => ⟨false⟩
  | .other => prefs

/-- Subscription-relevant state of a `TcpConnection` from
net/tcp/tcp_connection.rs: the client preferences and the optional tracker
receiver (`data_subscription`), the latter modelled by an identifier. -/
structure TcpConnState where
  prefs : ConnectionPreferences
  dataSubscription : Option Nat
deriving DecidableEq, Repr

/-- Frames the connection writes during subscription reconciliation. -/
inductive TcpEmit where
  | subscriptionActivated
  | subscriptionDeactivated
deriving DecidableEq, Repr

/-- Result of one `handle_request_frame` call: the connection state
afterwards, the reconciliation frames written, and the number of
`SubscribeMsg` requests sent to the tracker (fresh receivers obtained). -/
structure HandleFrameOutcome where
  state : TcpConnState
  emits : List TcpEmit
  subscribeMsgs : Nat
deriving DecidableEq, Repr

/-- Embedding of `TcpConnection::handle_request_frame`
(net/tcp/tcp_connection.rs lines 75-125): dispatch the request (updating
the preferences), then reconcile: if `subscribed` is set and no
subscription is stored, obtain a fresh receiver and emit SUBSCRIBED; if
`subscribed` is clear and a subscription is stored, drop it and emit
UNSUBSCRIBED. -/
def handleRequestFrame (s : TcpConnState) (req : TcpRequest) (freshReceiver : Nat) :
    HandleFrameOutcome :=
  let prefs := updatePreferences s.prefs req
  let s1 : TcpConnState := ⟨prefs, s.dataSubscription⟩
  let step2 :=
    if s1.prefs.subscribed && s1.dataSubscription.isNone then
      (TcpConnState.mk s1.prefs (some freshReceiver), [TcpEmit.subscriptionActivated], 1)
    else (s1, [], 0)
  let s2 := step2.1
  let step3 :=
    if !s2.prefs.subscribed && s2.dataSubscription.isSome then
      (TcpConnState.mk s2.prefs none, [TcpEmit.subscriptionDeactivated])
    else (s2, [])
  ⟨step3.1, step2.2.1 ++ step3.2, step2.2.2⟩

/-- Embedding of one iteration of the `TcpConnection::handle_connection`
loop (net/tcp/tcp_connection.rs lines 50-69) for the case of an incoming
request frame: the loop first `take`s `data_subscription` out of the
connection state; when it was present (streaming mode), the select arm
runs `handle_request_frame` with the field left empty and afterwards the
taken receiver is written back unconditionally, overwriting whatever the
handler stored there. -/
def connLoopIter (s : TcpConnState) (req : TcpRequest) (freshReceiver : Nat) :
    HandleFrameOutcome :=
  match s.dataSubscription with
  | none => handleRequestFrame s req freshReceiver
  | some rc =>
    let r := handleRequestFrame ⟨s.prefs, none⟩ req freshReceiver
    ⟨⟨r.state.prefs, some rc⟩, r.emits, r.subscribeMsgs⟩

/-- WebSocket messages as far as net/ws/ws_connection.rs distinguishes
them: text messages are dispatched as frames, every other kind (binary
among them) falls into the catch-all arm. -/
inductive WsMsg where
  | text (s : List Nat)
  | binary (b : List Nat)
deriving DecidableEq, Repr

/-- Embedding of `WsConnection::process_received`
(net/ws/ws_connection.rs lines 46-74), parametrized over the frame
handler: a text message is dispatched and answered with the response (or
with an empty text message when there is none); a binary message is logged
and answered with an empty text message; an `Err` item from the stream is
logged and likewise answered with an empty text message.  Every branch of
the source returns `Ok`, so the `unwrap` in the caller never fails and the
return is modelled as the plain reply message. -/
def wsProcessReceived (handler : List Nat → Option (List Nat)) :
    Except Unit WsMsg → WsMsg
  | .ok (.text t) =>
    match handler t with
    | none => .text []
    | some resp => .text resp
  | .ok (.binary _) => .text []
  | .error _ => .text []

/-- Embedding of the `WsConnection::handle_connection` receive loop
(net/ws/ws_connection.rs lines 40-43): every item the stream yields is
processed and answered; the loop ends only when the stream is
exhausted. -/
def wsHandleConnection (handler : List Nat → Option (List Nat))
    (items : List (Except Unit WsMsg)) : List WsMsg :=
  items.map (wsProcessReceived handler)

/-- A frame handler that produces no response, used as a concrete
instantiation. -/
def wsNullHandler : List Nat → Option (List Nat) := fun _ => none

/-- Every sextet produced by regrouping bytes is below 64. -/
theorem bytesToSextets_lt : ∀ (l : List Nat), (∀ x ∈ l, x < 256) →
    ∀ s ∈ bytesToSextets l, s < 64
  | [] => by intro _ s hs; simp [bytesToSextets] at hs
  | [a] => by
    intro h s hs
    have ha : a < 256 := h a (by simp)
    simp [bytesToSextets] at hs
    rcases hs with rfl | rfl <;> omega
  | [a, b] => by
    intro h s hs
    have ha : a < 256 := h a (by simp)
    have hb : b < 256 := h b (by simp)
    simp [bytesToSextets] at hs
    rcases hs with rfl | rfl | rfl <;> omega
  | a :: b :: c :: rest => by
    intro h s hs
    have ha : a < 256 := h a (by simp)
    have hb : b < 256 := h b (by simp)
    have hc : c < 256 := h c (by simp)
    have ih := bytesToSextets_lt rest (fun x hx => h x (by simp [hx]))
    simp [bytesToSextets] at hs
    rcases hs with rfl | rfl | rfl | rfl | hmem
    · omega
    · omega
    · omega
    · omega
    · exact ih s hmem

/-- Regrouping bytes into sextets and back is the identity on byte
sequences. -/
theorem sextetsToBytes_bytesToSextets : ∀ (l : List Nat), (∀ x ∈ l, x < 256) →
    sextetsToBytes (bytesToSextets l) = l
  | [] => by intro _; rfl
  | [a] => by
    intro h
    have ha : a < 256 := h a (by simp)
    simp [bytesToSextets, sextetsToBytes]
    omega
  | [a, b] => by
    intro h
    have ha : a < 256 := h a (by simp)
    have hb : b < 256 := h b (by simp)
    simp [bytesToSextets, sextetsToBytes]
    omega
  | a :: b :: c :: rest => by
    intro h
    have ha : a < 256 := h a (by simp)
    have hb : b < 256 := h b (by simp)
    have hc : c < 256 := h c (by simp)
    have ih := sextetsToBytes_bytesToSextets rest (fun x hx => h x (by simp [hx]))
    simp [bytesToSextets, sextetsToBytes, ih]
    omega

/-- No base64 alphabet byte is the padding byte 61. -/
theorem b64charOf_ne_61 : ∀ v, v < 64 → b64charOf v ≠ 61 := by decide

/-- The inverse alphabet lookup recovers every 6-bit value. -/
theorem b64valueOf_charOf : ∀ v, v < 64 → b64valueOf (b64charOf v) = v := by decide

/-- Filtering the padding characters out of the padding block leaves
nothing. -/
theorem b64pad_filter (n : Nat) : (b64pad n).filter (fun c => c != 61) = [] := by
  unfold b64pad
  split <;> rfl

/-- Base64 decoding inverts base64 encoding on byte sequences. -/
theorem b64decode_b64encode (l : List Nat) (h : ∀ x ∈ l, x < 256) :
    b64decode (b64encode l) = l := by
  unfold b64encode b64decode
  rw [List.filter_append, b64pad_filter, List.append_nil]
  have hmap : (List.map b64charOf (bytesToSextets l)).filter (fun c => c != 61) =
      List.map b64charOf (bytesToSextets l) := by
    apply List.filter_eq_self.mpr
    intro a ha
    rcases List.mem_map.mp ha with ⟨s, hs, rfl⟩
    simpa using b64charOf_ne_61 s (bytesToSextets_lt l h s hs)
  rw [hmap, List.map_map]
  have hid : (bytesToSextets l).map (b64valueOf ∘ b64charOf) = bytesToSextets l := by
    have := List.map_congr_left
      (fun s hs => b64valueOf_charOf s (bytesToSextets_lt l h s hs))
    simpa using this
  rw [hid]
  exact sextetsToBytes_bytesToSextets l h

/-- The three bytes emitted per pixel are exactly its channels in R, G, B
order: packing through the little-endian u32 and taking the low three
little-endian bytes returns the channels unchanged. -/
theorem colorRgbBytes_eq (c : Color) : colorRgbBytes c = [c.r.val, c.g.val, c.b.val] := by
  rcases c with ⟨⟨r, hr⟩, ⟨g, hg⟩, ⟨b, hb⟩⟩
  simp [colorRgbBytes, colorToU32LE]
  omega

/-- The pre-base64 buffer is the concatenation of the channel triples. -/
theorem rgb64EncodeBytes_eq (data : List Color) :
    rgb64EncodeBytes data = data.flatMap (fun c => [c.r.val, c.g.val, c.b.val]) := by
  induction data with
  | nil => rfl
  | cons c rest ih =>
    simp only [rgb64EncodeBytes, List.flatMap_cons] at *
    rw [colorRgbBytes_eq, ih]

/-- Every byte of the pre-base64 buffer is below 256. -/
theorem rgb64EncodeBytes_lt (data : List Color) : ∀ x ∈ rgb64EncodeBytes data, x < 256 := by
  rw [rgb64EncodeBytes_eq]
  intro x hx
  rcases List.mem_flatMap.mp hx with ⟨c, hc, hm⟩
  simp at hm
  rcases hm with rfl | rfl | rfl
  · exact c.r.isLt
  · exact c.g.isLt
  · exact c.b.isLt

/-- The pre-base64 buffer holds three bytes per pixel. -/
theorem rgb64EncodeBytes_length (data : List Color) :
    (rgb64EncodeBytes data).length = 3 * data.length := by
  rw [rgb64EncodeBytes_eq]
  induction data with
  | nil => rfl
  | cons c rest ih =>
    simp only [List.flatMap_cons, List.length_append, List.length_cons, ih,
      List.length_nil]
    omega

/-- The i-th three-byte slice of the pre-base64 buffer is the i-th pixel's
channel triple. -/
theorem rgb64EncodeBytes_slice : ∀ (data : List Color) (i : Nat), i < data.length →
    ((rgb64EncodeBytes data).drop (3 * i)).take 3 =
      [(data.getD i cBlack).r.val, (data.getD i cBlack).g.val, (data.getD i cBlack).b.val]
  | [], i => by intro hi; simp at hi
  | c :: rest, 0 => by
    intro _
    rw [rgb64EncodeBytes_eq]
    simp [List.flatMap_cons]
  | c :: rest, j + 1 => by
    intro hj
    have hj' : j < rest.length := by simpa using hj
    have ih := rgb64EncodeBytes_slice rest j hj'
    rw [rgb64EncodeBytes_eq] at ih ⊢
    simp only [List.flatMap_cons]
    have h3 : 3 * (j + 1) = 3 * j + 3 := by ring
    rw [h3]
    have hdrop : (([c.r.val, c.g.val, c.b.val] ++
        rest.flatMap (fun c => [c.r.val, c.g.val, c.b.val])).drop (3 * j + 3)) =
        (rest.flatMap (fun c => [c.r.val, c.g.val, c.b.val])).drop (3 * j) := rfl
    rw [hdrop, ih]
    simp

/-- C1: the claim states that after a sequence of adds the drained entry
for a pixel carries the color of the LAST add.  The code keeps the FIRST
color instead: `HashSet::insert` does not replace an existing equal
element, and element equality ignores the color.  Adding (5,5) with color
(42,42,42) and then (5,5) with color (120,120,120) to a 10×10 tracker and
draining yields exactly one entry whose color is (42,42,42), not
(120,120,120). -/
theorem c1_tracker_keeps_first_write :
    ((((Tracker.new 10 10).add 5 5 ⟨42, 42, 42⟩).add 5 5 ⟨120, 120, 120⟩).get_changes).1 =
      [⟨55, (5, 5), ⟨42, 42, 42⟩⟩] ∧
    ((((Tracker.new 10 10).add 5 5 ⟨42, 42, 42⟩).add 5 5 ⟨120, 120, 120⟩).get_changes).1 ≠
      [⟨55, (5, 5), ⟨120, 120, 120⟩⟩] := by decide

/-- C2 counterexample: the claim states that on a failed (OutOfBounds)
SetPixel no notification reaches the tracker and the tracker state is
unchanged.  On a 10×10 pixmap the write (10,0) fails, yet the handler
still forwards the message to the configured tracker, and the tracker's
change set changes when it receives it. -/
theorem c2_notify_on_failed_write_cex :
    (handleSetPixelMsg ⟨10, 10, List.replicate 100 cBlack⟩ true ⟨10, 0, ⟨255, 0, 0⟩⟩).result =
      .error .outOfBounds ∧
    (handleSetPixelMsg ⟨10, 10, List.replicate 100 cBlack⟩ true ⟨10, 0, ⟨255, 0, 0⟩⟩).notifications =
      [⟨10, 0, ⟨255, 0, 0⟩⟩] ∧
    trackerReceiveAll (Tracker.new 10 10)
      (handleSetPixelMsg ⟨10, 10, List.replicate 100 cBlack⟩ true ⟨10, 0, ⟨255, 0, 0⟩⟩).notifications ≠
      Tracker.new 10 10 := by decide

/-- C2 (amended): the SetPixel handler forwards the message to the
configured tracker unconditionally — the forwarding future is spawned
before the pixmap write and without inspecting its result — and forwards
nothing when no tracker is configured; when the coordinates are out of
bounds the write itself fails with OutOfBounds and leaves the pixmap
unchanged, but the notification is sent regardless. -/
theorem c2_notify_unconditional (p : Pixmap) (msg : SetPixelMsg) :
    (handleSetPixelMsg p true msg).notifications = [msg] ∧
    (handleSetPixelMsg p false msg).notifications = [] ∧
    (¬(msg.x < p.width ∧ msg.y < p.height) →
      (handleSetPixelMsg p true msg).result = .error .outOfBounds ∧
      (handleSetPixelMsg p true msg).pixmap = p) := by
  refine ⟨?_, ?_, ?_⟩
  · unfold handleSetPixelMsg
    cases p.set_pixel msg.x msg.y msg.color <;> rfl
  · unfold handleSetPixelMsg
    cases p.set_pixel msg.x msg.y msg.color <;> rfl
  · intro hob
    have hfail : p.set_pixel msg.x msg.y msg.color = .error .outOfBounds := by
      unfold Pixmap.set_pixel
      rw [if_neg]
      simpa using hob
    unfold handleSetPixelMsg
    rw [hfail]
    exact ⟨rfl, rfl⟩

/-- C2 witness: the amended statement at the concrete out-of-bounds input
(2,0) on a 2×2 pixmap. -/
theorem c2_notify_unconditional_witness :
    (handleSetPixelMsg ⟨2, 2, List.replicate 4 cBlack⟩ true ⟨2, 0, cBlack⟩).result =
      .error .outOfBounds ∧
    (handleSetPixelMsg ⟨2, 2, List.replicate 4 cBlack⟩ true ⟨2, 0, cBlack⟩).notifications =
      [⟨2, 0, cBlack⟩] := by
  have h := c2_notify_unconditional ⟨2, 2, List.replicate 4 cBlack⟩ ⟨2, 0, cBlack⟩
  exact ⟨(h.2.2 (by decide)).1, h.1⟩

/-- C3 counterexample: the claim states that the two u32 conversions are
mutually inverse on 24-bit colors.  For the color (1,2,3) the packing
yields 0x01020300 (the source packs as 0xRRGGBB00, alpha in the low byte)
and unpacking that yields (2,3,0), not (1,2,3). -/
theorem c3_u32_roundtrip_cex :
    colorFromU32 (colorToU32 ⟨1, 2, 3⟩) ≠ (⟨1, 2, 3⟩ : Color) ∧
    colorToU32 ⟨1, 2, 3⟩ = 16909056 ∧
    colorFromU32 (colorToU32 ⟨1, 2, 3⟩) = (⟨2, 3, 0⟩ : Color) := by decide

/-- C3 (amended): the conversion into u32 packs a color as 0xRRGGBB00
while the conversion from u32 reads 0x00RRGGBB, so the two are inverse
only up to a shift by one byte: unpacking the packed form divided by 256
recovers every color, and packing the color read from any 24-bit value u
yields u·256. -/
theorem c3_u32_shifted_roundtrip :
    (∀ c : Color, colorFromU32 (colorToU32 c / 256) = c) ∧
    (∀ u : Nat, u < 16777216 → colorToU32 (colorFromU32 u) = u * 256) := by
  constructor
  · intro c
    rcases c with ⟨⟨r, hr⟩, ⟨g, hg⟩, ⟨b, hb⟩⟩
    simp [colorToU32, colorFromU32, Fin.ext_iff]
    omega
  · intro u hu
    simp [colorToU32, colorFromU32]
    omega

/-- C3 witness: the shifted round-trip at the concrete color (17,34,51)
and at the concrete 24-bit value 0x123456. -/
theorem c3_u32_shifted_roundtrip_witness :
    colorFromU32 (colorToU32 ⟨17, 34, 51⟩ / 256) = (⟨17, 34, 51⟩ : Color) ∧
    colorToU32 (colorFromU32 1193046) = 1193046 * 256 :=
  ⟨c3_u32_shifted_roundtrip.1 ⟨17, 34, 51⟩,
   c3_u32_shifted_roundtrip.2 1193046 (by decide)⟩

/-- C4: the claim states that the first n bytes of every datagram of
length 0 < n ≤ 1024 are delivered to frame extraction, so a datagram
holding a valid frame has that frame applied.  The receive loop passes a
zero-length slice of a fresh `BytesMut::with_capacity(1024)` to
`recv_from`, so zero bytes are delivered: the five-byte datagram
SIZE-newline produces no extracted frame, although frame extraction on
the full datagram would produce the SIZE frame. -/
theorem c4_udp_datagram_dropped :
    udpListenFrames [83, 73, 90, 69, 10] = [] ∧
    extractFrames [83, 73, 90, 69, 10] = [[83, 73, 90, 69]] := by
  constructor
  · simp [udpListenFrames, udpListenDelivered, recvFromDelivered, udpRecvBufferLen,
      extractFrames]
  · have h1 : frameFromInput [83, 73, 90, 69, 10] = some ([83, 73, 90, 69], 5) := by rfl
    rw [extractFrames, h1]
    simp [extractFrames]

/-- C5: the rgb64 encoder's output base64-decodes to exactly 3·W·H bytes,
and for every index i the byte slice (3·i .. 3·i+3) equals the i-th
pixel's (R, G, B) channels in row-major order. -/
theorem c5_rgb64_encoding_correct (w h : Nat) (data : List Color)
    (hlen : data.length = w * h) :
    (b64decode (rgb64Encode w h data)).length = 3 * (w * h) ∧
    ∀ i, i < w * h →
      ((b64decode (rgb64Encode w h data)).drop (3 * i)).take 3 =
        [(data.getD i cBlack).r.val, (data.getD i cBlack).g.val,
         (data.getD i cBlack).b.val] := by
  have hrt : b64decode (rgb64Encode w h data) = rgb64EncodeBytes data := by
    unfold rgb64Encode
    exact b64decode_b64encode _ (rgb64EncodeBytes_lt data)
  constructor
  · rw [hrt, rgb64EncodeBytes_length, hlen]
  · intro i hi
    rw [hrt]
    exact rgb64EncodeBytes_slice data i (by omega)

/-- C5 witness: a 1×1 pixmap holding the color 0xAABBCC encodes to a
string that decodes back to the three bytes 170, 187, 204. -/
theorem c5_rgb64_encoding_correct_witness :
    (b64decode (rgb64Encode 1 1 [⟨170, 187, 204⟩])).length = 3 * (1 * 1) ∧
    ((b64decode (rgb64Encode 1 1 [⟨170, 187, 204⟩])).drop (3 * 0)).take 3 =
      [170, 187, 204] := by
  have h := c5_rgb64_encoding_correct 1 1 [⟨170, 187, 204⟩] (by decide)
  exact ⟨h.1, by simpa using h.2 0 (by decide)⟩

/-- C6 counterexample: the claim states that handling TriggerUpdatesMsg
drains the change set regardless of how many subscribers exist.  A fresh
TrackerActor has zero receivers (the initial watch receiver is dropped in
`new`), so after one tracked change the handler leaves the change set
untouched: nothing is drained and nothing is published. -/
theorem c6_flush_skipped_without_receivers_cex :
    (handleTriggerUpdates
      (handleTrackerSetPixel (TrackerActorState.new 10 10) ⟨5, 5, ⟨1, 1, 1⟩⟩)).tracker.changes ≠
      [] ∧
    handleTriggerUpdates
      (handleTrackerSetPixel (TrackerActorState.new 10 10) ⟨5, 5, ⟨1, 1, 1⟩⟩) =
      handleTrackerSetPixel (TrackerActorState.new 10 10) ⟨5, 5, ⟨1, 1, 1⟩⟩ := by decide

/-- C6 (amended): handling TriggerUpdatesMsg drains the change set and
publishes the drained vector, replacing the stored value, whenever at
least one receiver of the broadcast channel exists; with zero receivers
the channel is closed and the handler leaves the state entirely
unchanged. -/
theorem c6_flush_with_receivers (s : TrackerActorState) :
    (0 < s.receiverCount →
      (handleTriggerUpdates s).tracker.changes = [] ∧
      (handleTriggerUpdates s).publisherValue = s.tracker.changes.map changeToMsg ∧
      (handleTriggerUpdates s).receiverCount = s.receiverCount) ∧
    (s.receiverCount = 0 → handleTriggerUpdates s = s) := by
  constructor
  · intro h
    have h0 : ¬s.receiverCount = 0 := by omega
    simp [handleTriggerUpdates, Tracker.get_changes, h0]
  · intro h
    simp [handleTriggerUpdates, h]

/-- C6 witness: the amended statement at a concrete state with one
subscriber and one tracked change, and at a fresh actor with zero
subscribers. -/
theorem c6_flush_with_receivers_witness :
    (handleTriggerUpdates
      ((handleSubscribe (handleTrackerSetPixel (TrackerActorState.new 2 2)
        ⟨0, 0, ⟨9, 9, 9⟩⟩)).1)).tracker.changes = [] ∧
    handleTriggerUpdates (TrackerActorState.new 2 2) = TrackerActorState.new 2 2 := by
  have h1 := c6_flush_with_receivers
    ((handleSubscribe (handleTrackerSetPixel (TrackerActorState.new 2 2) ⟨0, 0, ⟨9, 9, 9⟩⟩)).1)
  have h2 := c6_flush_with_receivers (TrackerActorState.new 2 2)
  exact ⟨(h1.1 (by decide)).1, h2.2 (by decide)⟩

/-- C7: the claim states that the encoder task triggers a re-encode on
every elapsed interval period.  The future spawned by the encoder's
`started` awaits a single tick and sends a single TriggerEncodingMsg: the
number of triggers sent never exceeds one, and after two elapsed periods
it is still one, not two.  The handler itself does replace the cache with
the encoding of the pixmap's current data. -/
theorem c7_auto_encoder_triggers_once :
    (∀ n : Nat, autoEncoderTriggerCount n ≤ 1) ∧
    autoEncoderTriggerCount 1 = 1 ∧
    autoEncoderTriggerCount 2 = 1 ∧
    (∀ (encode : Nat → Nat → List Color → List Nat) (p : Pixmap) (cache : List Nat),
      handleTriggerEncoding encode p cache = encode p.width p.height p.data) := by
  refine ⟨fun n => ?_, rfl, rfl, fun encode p cache => rfl⟩
  simp [autoEncoderTriggerCount]

/-- C8: the claim states that a SUBSCRIBE on an already subscribed
connection obtains no new receiver and emits no second SUBSCRIBED, and
that an UNSUBSCRIBE when subscribed drops the receiver and emits
UNSUBSCRIBED.  The connection loop takes the receiver out of the state
before handling a frame and writes it back afterwards, so the
reconciliation never sees an existing subscription: a first SUBSCRIBE
works as specified, but a second SUBSCRIBE obtains a fresh receiver and
emits SUBSCRIBED again, and an UNSUBSCRIBE while subscribed emits nothing
and leaves the stored receiver in place. -/
theorem c8_subscription_reconciliation_broken :
    connLoopIter ⟨⟨false⟩, none⟩ .subscribe 0 =
      ⟨⟨⟨true⟩, some 0⟩, [.subscriptionActivated], 1⟩ ∧
    connLoopIter ⟨⟨true⟩, some 0⟩ .subscribe 1 =
      ⟨⟨⟨true⟩, some 0⟩, [.subscriptionActivated], 1⟩ ∧
    connLoopIter ⟨⟨true⟩, some 0⟩ .unsubscribe 1 =
      ⟨⟨⟨false⟩, some 0⟩, [], 0⟩ := by decide

/-- C9 counterexample: the claim states that an Err item from the message
stream terminates the connection.  The source answers an Err item exactly
like a binary message — with a warning and an empty text reply — and the
loop continues: a stream yielding an error followed by two further
messages produces three replies, and the reply to the error is the empty
text message. -/
theorem c9_ws_error_does_not_terminate_cex :
    (wsHandleConnection wsNullHandler
      [.error (), .ok (.binary [1]), .ok (.text [83])]).length = 3 ∧
    wsProcessReceived wsNullHandler (.error ()) = .text [] := by decide

/-- C9 (amended): binary messages are ignored with a warning and replied
to with an empty text message, and socket-level errors are handled the
same way — they do not terminate the connection; the receive loop answers
every stream item and ends only when the stream is exhausted. -/
theorem c9_ws_error_and_binary_ignored :
    (∀ (handler : List Nat → Option (List Nat)) (items : List (Except Unit WsMsg)),
      (wsHandleConnection handler items).length = items.length) ∧
    (∀ (handler : List Nat → Option (List Nat)) (b : List Nat),
      wsProcessReceived handler (.error ()) = .text [] ∧
      wsProcessReceived handler (.ok (.binary b)) = .text []) :=
  ⟨fun handler items => by simp [wsHandleConnection],
   fun handler b => ⟨rfl, rfl⟩⟩

/-- C10: Tracker.add performs no bounds check and its key y·W+x collides
for the distinct coordinates (W,0) and (0,1): both adds produce the same
pixmap_index, and after adding the out-of-range (W,0) and then the
in-bounds (0,1) to a fresh W×H tracker the set holds a single entry — the
in-bounds pixel's change has been merged away. -/
theorem c10_tracker_index_collision (W H : Nat) (c1 c2 : Color) :
    ((W, (0 : Nat)) : Nat × Nat) ≠ ((0 : Nat), (1 : Nat)) ∧
    ((Tracker.new W H).add W 0 c1).changes.map TrackedChange.pixmap_index =
      ((Tracker.new W H).add 0 1 c2).changes.map TrackedChange.pixmap_index ∧
    (((Tracker.new W H).add W 0 c1).add 0 1 c2).changes = [⟨W, (W, 0), c1⟩] := by
  refine ⟨by simp, ?_, ?_⟩
  · simp [Tracker.new, Tracker.add]
  · simp [Tracker.new, Tracker.add]

end Pixelflut

